import Mathlib

/-!
Verification of the trace-capture controller (`pyppeteer/tracing.py`).

The module is embedded shallowly:

* Commands and listener registrations issued to the `CDPSession` are recorded
  as a `List SessionOp` trace, in the order the code issues them.
* The event loop / futures are resolved by explicit oracles: the
  `Tracing.tracingComplete` event is an optional input, and the sequence of
  `IO.read` responses is a list (`ReadOracle`), each entry either a response
  or a transport error raised by the corresponding `send`.
* Python `dict.get` defaulting is modelled with `Option` fields and `getD`.
* Python lists are mutable objects: caller-visible lists live in a `Heap`
  (list of list contents, indexed by reference), so in-place `append` is
  observable to the caller.
-/

/-- A response to one `IO.read` command. In the protocol both fields are
optional: the code reads them with `response.get` and a default. -/
structure ReadResp where
  data : Option String
  eof : Option Bool
deriving DecidableEq, Repr

/-- The payload of a `Tracing.tracingComplete` event: the code extracts the
optional `stream` field with `event.get`, giving `None` when absent. -/
structure TracingCompleteEvent where
  stream : Option String
deriving DecidableEq, Repr

/-- Parameters carried by a `send` on the session, as built by the code. -/
inductive SendParams where
  | empty
  | tracingStart (transferMode : String) (categories : String)
  | ioHandle (handle : Option String)
deriving DecidableEq, Repr

/-- One operation issued by the module, in program order: a one-shot listener
registration, a protocol command `send`, or the trace-file write. -/
inductive SessionOp where
  | once (event : String)
  | send (method : String) (params : SendParams)
  | writeFile (path : String) (content : String)
deriving DecidableEq, Repr

/-- Oracle for the successive `IO.read` commands: each entry is either the
response delivered for that read, or the error the `send` raises. -/
abbrev ReadOracle := List (Except String ReadResp)

/-- Mutable state of the `Tracing` object: `self._recording` and `self._path`. -/
structure TracingSt where
  recording : Bool
  path : String
deriving DecidableEq, Repr

/-- Heap of Python list objects reachable by the caller; a reference is an
index into this list. -/
abbrev Heap := List (List String)

/-- The `categories` argument as a Python value: `None`, a string, or a
reference to a caller-owned list object. -/
inductive PyCats where
  | pyNone
  | pyStr (s : String)
  | pyList (r : Nat)
deriving DecidableEq, Repr

/-- Outcome of the `_readStream` drain: normal return, an exception raised by
a read, or no response ever arriving (the await never resolves). -/
inductive DrainResult where
  | ok (content : String)
  | raised (e : String)
  | stuck
deriving DecidableEq, Repr

/-- Outcome of `stop` as seen by its caller: the content future resolved, the
`Tracing.end` send raised, or the future is never resolved. -/
inductive StopResult where
  | ok (s : String)
  | raised (e : String)
  | hangs
deriving DecidableEq, Repr

/-- Outcome of `start` as seen by its caller: normal return, or the
`Tracing.start` send raised. -/
inductive StartOutcome where
  | ok
  | raised (e : String)
deriving DecidableEq, Repr

/-- What `start` produces: the ops issued, the new object state, the heap
after any in-place list mutation, and whether the send succeeded. -/
structure StartResult where
  ops : List SessionOp
  st : TracingSt
  heap : Heap
  outcome : StartOutcome
deriving DecidableEq, Repr

/-- What `stop` produces: the ops issued (including those of the drain task),
the new object state, and the result its caller observes. -/
structure StopOut where
  ops : List SessionOp
  st : TracingSt
  result : StopResult
deriving DecidableEq, Repr

/-- What `_readStream` produces: the ops issued and the drain outcome. -/
structure DrainOut where
  ops : List SessionOp
  result : DrainResult
deriving DecidableEq, Repr

namespace Tracing

/-- `defaultCategories` from `start` (tracing.py lines 43-56), verbatim. -/
def defaultCategories : List String :=
  ["-*",
   "devtools.timeline",
   "v8.execute",
   "disabled-by-default-devtools.timeline",
   "disabled-by-default-devtools.timeline.frame",
   "toplevel",
   "blink.console",
   "blink.user_timing",
   "latencyInfo",
   "disabled-by-default-devtools.timeline.stack",
   "disabled-by-default-v8.cpu_profiler",
   "disabled-by-default-v8.cpu_profiler.hires"]

/-- The token appended when `screenshots` is true (tracing.py line 65). -/
def screenshotCategory : String := "disabled-by-default-devtools.screenshot"

/-- Category resolution in `start` (tracing.py lines 58-65):
`isinstance(categories, list)` keeps the caller's object; otherwise
`list(categories)` builds a fresh list (for a string, its characters);
`list(None)` raises `TypeError`, caught and replaced by the defaults.
Then `categories.append(screenshotCategory)` mutates whichever object
`categories` refers to; only for a caller list is that mutation visible
through the heap. Returns the list that is serialized and the new heap. -/
def resolveCategories (cats : PyCats) (screenshots : Bool) (h : Heap) :
    List String × Heap :=
  match cats with
  | PyCats.pyList r =>
      let base := (h.get? r).getD []
      if screenshots then
        let updated := base ++ [screenshotCategory]
        (updated, h.set r updated)
      else
        (base, h)
  | PyCats.pyStr s =>
      let chars := s.toList.map Char.toString
      (if screenshots then chars ++ [screenshotCategory] else chars, h)
  | PyCats.pyNone =>
      (if screenshots then defaultCategories ++ [screenshotCategory]
       else defaultCategories, h)

/-- `Tracing.start` (tracing.py lines 31-71): resolve the categories, set
`self._path` and `self._recording = True` (lines 67-68, before the send),
then send `Tracing.start` with `transferMode='ReturnAsStream'` and the
comma-joined categories. `sendFails` makes the awaited send raise; the state
and heap updates have already happened by then. -/
def start (path : String) (screenshots : Bool) (cats : PyCats)
    (st : TracingSt) (h : Heap) (sendFails : Bool) : StartResult :=
  let resolved := resolveCategories cats screenshots h
  let op := SessionOp.send "Tracing.start"
    (SendParams.tracingStart "ReturnAsStream" (String.intercalate "," resolved.1))
  { ops := [op]
    st := { recording := true, path := path }
    heap := resolved.2
    outcome := if sendFails then StartOutcome.raised "transport" else StartOutcome.ok }

/-- Default read of the `eof` field: `response.get('eof', False)` (line 95). -/
def eofD (r : ReadResp) : Bool := r.eof.getD false

/-- Default read of the `data` field: `response.get('data', '')` (line 96). -/
def dataD (r : ReadResp) : String := r.data.getD ""

/-- The `IO.read` command for a handle, as sent on line 94. -/
def readOp (handle : Option String) : SessionOp :=
  SessionOp.send "IO.read" (SendParams.ioHandle handle)

/-- The `IO.close` command for a handle, as sent on line 97. -/
def closeOp (handle : Option String) : SessionOp :=
  SessionOp.send "IO.close" (SendParams.ioHandle handle)

/-- Outcome of the `while not eof` loop of `_readStream`. -/
inductive LoopOut where
  | done (bufs : List String)
  | err (e : String)
  | hung
deriving DecidableEq, Repr

/-- The `while not eof` loop of `_readStream` (tracing.py lines 91-96):
each iteration sends `IO.read`; if that send raises, the exception
propagates out of the loop at once (there is no try/finally); otherwise
`eof` and the chunk are read with their defaults, the chunk is appended,
and the loop continues until `eof` is true. An exhausted oracle means a
read whose response never arrives: the await never resolves. -/
def readLoop (handle : Option String) (resps : ReadOracle) :
    List SessionOp × LoopOut :=
  match resps with
  | [] => ([readOp handle], LoopOut.hung)
  | Except.error e :: _ => ([readOp handle], LoopOut.err e)
  | Except.ok resp :: rest =>
      if eofD resp then
        ([readOp handle], LoopOut.done [dataD resp])
      else
        let next := readLoop handle rest
        (readOp handle :: next.1,
         match next.2 with
         | LoopOut.done bufs => LoopOut.done (dataD resp :: bufs)
         | out => out)

/-- `Tracing._readStream` (tracing.py lines 89-104): run the read loop, then
send `IO.close`, join the chunks, and write the file when `path` is truthy
(non-empty). A read error propagates before the `IO.close` line is reached. -/
def readStream (handle : Option String) (path : String) (resps : ReadOracle) :
    DrainOut :=
  let loop := readLoop handle resps
  match loop.2 with
  | LoopOut.err e => { ops := loop.1, result := DrainResult.raised e }
  | LoopOut.hung => { ops := loop.1, result := DrainResult.stuck }
  | LoopOut.done bufs =>
      let result := String.join bufs
      { ops := loop.1 ++ [closeOp handle] ++
          (if path = "" then [] else [SessionOp.writeFile path result])
        result := DrainResult.ok result }

/-- `Tracing.stop` (tracing.py lines 73-87): create the content future, arm a
one-shot `Tracing.tracingComplete` listener, send `Tracing.end`, set
`self._recording = False`, and await the future.

* If the `Tracing.end` send raises (`endFails`), the exception propagates
  before line 86, so `_recording` is untouched.
* `event` is the `tracingComplete` payload, or `none` if the remote never
  emits it (the future is never resolved and `stop` hangs).
* The listener runs `_readStream(event.get('stream'), self._path)` as a task
  whose done-callback calls `contentFuture.set_result(fut.result())`: when
  the task raised, `fut.result()` re-raises inside the callback, so
  `set_result` never runs and the future is never resolved. -/
def stop (st : TracingSt) (endFails : Bool)
    (event : Option TracingCompleteEvent) (resps : ReadOracle) : StopOut :=
  let onceOp := SessionOp.once "Tracing.tracingComplete"
  let endOp := SessionOp.send "Tracing.end" SendParams.empty
  if endFails then
    { ops := [onceOp, endOp], st := st, result := StopResult.raised "transport" }
  else
    let st2 : TracingSt := { st with recording := false }
    match event with
    | none => { ops := [onceOp, endOp], st := st2, result := StopResult.hangs }
    | some ev =>
        let drain := readStream ev.stream st.path resps
        { ops := [onceOp, endOp] ++ drain.ops
          st := st2
          result :=
            match drain.result with
            | DrainResult.ok c => StopResult.ok c
            | DrainResult.raised _ => StopResult.hangs
            | DrainResult.stuck => StopResult.hangs }

/-- Repeated invocation of `start` with the same arguments, threading the
heap: models a caller invoking `start` n times with the same list object. -/
def startNTimes (n : Nat) (path : String) (screenshots : Bool) (cats : PyCats)
    (st : TracingSt) (h : Heap) : Heap :=
  match n with
  | 0 => h
  | Nat.succ m =>
      startNTimes m path screenshots cats st
        (start path screenshots cats st h false).heap

end Tracing

/-! ## Helper lemmas -/

/-- The `IO.read` and `IO.close` commands are distinct operations. -/
lemma readOp_ne_closeOp (handle : Option String) :
    Tracing.readOp handle ≠ Tracing.closeOp handle := by
  intro hc
  injection hc with h1 h2
  exact absurd h1 (by decide)

/-- Every operation emitted by the read loop is an `IO.read` on the handle. -/
lemma readLoop_ops_all_read (handle : Option String) (resps : ReadOracle) :
    ∀ op ∈ (Tracing.readLoop handle resps).1, op = Tracing.readOp handle := by
  induction resps with
  | nil => simp [Tracing.readLoop]
  | cons r rest ih =>
      cases r with
      | error e => simp [Tracing.readLoop]
      | ok resp =>
          by_cases he : Tracing.eofD resp = true
          · simp [Tracing.readLoop, he]
          · have he2 : Tracing.eofD resp = false := by simpa using he
            simp only [Tracing.readLoop, he2, Bool.false_eq_true, if_false]
            intro op hop
            rcases List.mem_cons.mp hop with h | h
            · exact h
            · exact ih op h

/-- The read loop never emits an `IO.close`. -/
lemma readLoop_count_close (handle : Option String) (resps : ReadOracle) :
    (Tracing.readLoop handle resps).1.count (Tracing.closeOp handle) = 0 := by
  rw [List.count_eq_zero]
  intro hmem
  exact readOp_ne_closeOp handle (readLoop_ops_all_read handle resps _ hmem).symm

/-- The read loop always starts by issuing an `IO.read`. -/
lemma readOp_mem_readLoop (handle : Option String) (resps : ReadOracle) :
    Tracing.readOp handle ∈ (Tracing.readLoop handle resps).1 := by
  cases resps with
  | nil => simp [Tracing.readLoop]
  | cons r rest =>
      cases r with
      | error e => simp [Tracing.readLoop]
      | ok resp =>
          by_cases he : Tracing.eofD resp = true
          · simp [Tracing.readLoop, he]
          · have he2 : Tracing.eofD resp = false := by simpa using he
            simp [Tracing.readLoop, he2]

/-- `_readStream` always issues at least one `IO.read` on its handle. -/
lemma readOp_mem_readStream (handle : Option String) (path : String)
    (resps : ReadOracle) :
    Tracing.readOp handle ∈ (Tracing.readStream handle path resps).ops := by
  have hm := readOp_mem_readLoop handle resps
  cases h2 : (Tracing.readLoop handle resps).2 with
  | done bufs => simp [Tracing.readStream, h2, hm]
  | err e => simp [Tracing.readStream, h2, hm]
  | hung => simp [Tracing.readStream, h2, hm]

/-- Behaviour of the read loop on a response sequence whose first `eof=true`
response is `last`, preceded by non-eof responses `pre`: one read per
response up to and including `last`, and the loop finishes with the chunks
of `pre ++ [last]` in order. -/
lemma readLoop_complete (handle : Option String) (pre : List ReadResp)
    (last : ReadResp) (post : ReadOracle)
    (hpre : ∀ r ∈ pre, Tracing.eofD r = false)
    (hlast : Tracing.eofD last = true) :
    Tracing.readLoop handle ((pre.map Except.ok) ++ Except.ok last :: post) =
      (List.replicate (pre.length + 1) (Tracing.readOp handle),
       Tracing.LoopOut.done ((pre ++ [last]).map Tracing.dataD)) := by
  induction pre with
  | nil => simp [Tracing.readLoop, hlast]
  | cons p ps ih =>
      have hp : Tracing.eofD p = false := hpre p (by simp)
      have ih2 := ih (fun r hr => hpre r (by simp [hr]))
      simp [Tracing.readLoop, hp, ih2, List.replicate_succ]

/-! ## Claim theorems -/

/-- C1: in every execution of `stop`, the one-shot listener registration for
`Tracing.tracingComplete` is issued strictly before the `Tracing.end` send:
the operation trace always begins with the `once` followed by the send. -/
theorem c1_once_precedes_end (st : TracingSt) (endFails : Bool)
    (event : Option TracingCompleteEvent) (resps : ReadOracle) :
    ∃ rest, (Tracing.stop st endFails event resps).ops =
      SessionOp.once "Tracing.tracingComplete" ::
      SessionOp.send "Tracing.end" SendParams.empty :: rest := by
  cases endFails with
  | false => cases event with
    | none => exact ⟨[], rfl⟩
    | some ev => exact ⟨_, rfl⟩
  | true => exact ⟨[], rfl⟩

/-- C2: on a response sequence whose first `eof=true` response is `last`
(after non-eof responses `pre`), the drain issues exactly `pre.length + 1`
reads and returns the concatenation, in request order, of every chunk
received, zero-length and defaulted chunks included. -/
theorem c2_drain_reads_and_concatenates (handle : Option String)
    (path : String) (pre : List ReadResp) (last : ReadResp) (post : ReadOracle)
    (hpre : ∀ r ∈ pre, Tracing.eofD r = false)
    (hlast : Tracing.eofD last = true) :
    (Tracing.readStream handle path
        ((pre.map Except.ok) ++ Except.ok last :: post)).result =
      DrainResult.ok (String.join ((pre ++ [last]).map Tracing.dataD)) ∧
    (Tracing.readStream handle path
        ((pre.map Except.ok) ++ Except.ok last :: post)).ops.count
      (Tracing.readOp handle) = pre.length + 1 := by
  have hl := readLoop_complete handle pre last post hpre hlast
  constructor
  · simp [Tracing.readStream, hl]
  · simp [Tracing.readStream, hl, List.count_append, List.count_replicate]
    split <;> simp [List.count_cons, Tracing.readOp, Tracing.closeOp]

/-- C2 witness: the spec's example — chunks `ab`, `` (empty), `cd` with eof
flags false, false, true — yields `abcd` in exactly three reads. -/
theorem c2_drain_witness :
    (Tracing.readStream (some "h1") ""
      [Except.ok ⟨some "ab", some false⟩, Except.ok ⟨some "", some false⟩,
       Except.ok ⟨some "cd", some true⟩]).result = DrainResult.ok "abcd" ∧
    (Tracing.readStream (some "h1") ""
      [Except.ok ⟨some "ab", some false⟩, Except.ok ⟨some "", some false⟩,
       Except.ok ⟨some "cd", some true⟩]).ops.count
      (Tracing.readOp (some "h1")) = 3 := by
  have h := c2_drain_reads_and_concatenates (some "h1") ""
    [⟨some "ab", some false⟩, ⟨some "", some false⟩] ⟨some "cd", some true⟩ []
    (by decide) (by decide)
  exact ⟨h.1, h.2⟩


/-- C3 counterexample: with a first successful non-eof read and a second read
that raises, the drain raises and its operation trace contains no `IO.close`
at all — the handle is not released on this exit path. -/
theorem c3_counterexample_no_close_on_error :
    (Tracing.readStream (some "h1") ""
      [Except.ok ⟨some "ab", some false⟩, Except.error "boom"]).ops.count
      (Tracing.closeOp (some "h1")) = 0 ∧
    (Tracing.readStream (some "h1") ""
      [Except.ok ⟨some "ab", some false⟩, Except.error "boom"]).result =
      DrainResult.raised "boom" := by decide

/-- C3 amended: `IO.close` is issued exactly once when the read loop
completes normally (a response with `eof=true` is seen); when a read raises
mid-loop or a response never arrives, no `IO.close` is issued and the
error propagates. -/
theorem c3_amended_close_on_success_only (handle : Option String)
    (path : String) (resps : ReadOracle) :
    (Tracing.readStream handle path resps).ops.count (Tracing.closeOp handle) =
      match (Tracing.readStream handle path resps).result with
      | DrainResult.ok _ => 1
      | _ => 0 := by
  cases h2 : (Tracing.readLoop handle resps).2 with
  | done bufs =>
      simp [Tracing.readStream, h2, List.count_append,
        readLoop_count_close handle resps]
      split <;> simp [List.count_cons, Tracing.readOp, Tracing.closeOp]
  | err e => simp [Tracing.readStream, h2, readLoop_count_close handle resps]
  | hung => simp [Tracing.readStream, h2, readLoop_count_close handle resps]

/-- C4: for a caller-supplied list with contents `l`, `start` sends
`Tracing.start` with `transferMode='ReturnAsStream'` and the elements of
`l` joined by commas, with the screenshot token appended iff the
screenshots flag is set. -/
theorem c4_start_serializes_list (path : String) (screenshots : Bool)
    (st : TracingSt) (h : Heap) (sendFails : Bool) (r : Nat) (l : List String)
    (hr : h.get? r = some l) :
    (Tracing.start path screenshots (PyCats.pyList r) st h sendFails).ops =
      [SessionOp.send "Tracing.start" (SendParams.tracingStart "ReturnAsStream"
        (String.intercalate ","
          (l ++ if screenshots then [Tracing.screenshotCategory] else [])))] := by
  have hr2 : h[r]? = some l := by
    rw [← List.get?_eq_getElem?]
    exact hr
  cases screenshots <;>
    simp [Tracing.start, Tracing.resolveCategories, hr2]

/-- C4 witness: a caller list with contents `x`, `y` and screenshots on
serializes to the two elements followed by the screenshot token. -/
theorem c4_start_witness :
    (Tracing.start "" true (PyCats.pyList 0) ⟨false, ""⟩ [["x", "y"]] false).ops =
      [SessionOp.send "Tracing.start" (SendParams.tracingStart "ReturnAsStream"
        "x,y,disabled-by-default-devtools.screenshot")] := by
  have h := c4_start_serializes_list "" true ⟨false, ""⟩ [["x", "y"]] false 0
    ["x", "y"] rfl
  exact h

set_option maxRecDepth 8192 in
/-- C5: when the categories argument is `None` (omitted, not convertible to
a list), the serialized filter is exactly the twelve default tokens in
order, plus the screenshot token exactly when requested. -/
theorem c5_default_filter (path : String) (st : TracingSt) (h : Heap)
    (sendFails : Bool) :
    (Tracing.start path false PyCats.pyNone st h sendFails).ops =
      [SessionOp.send "Tracing.start" (SendParams.tracingStart "ReturnAsStream"
        "-*,devtools.timeline,v8.execute,disabled-by-default-devtools.timeline,disabled-by-default-devtools.timeline.frame,toplevel,blink.console,blink.user_timing,latencyInfo,disabled-by-default-devtools.timeline.stack,disabled-by-default-v8.cpu_profiler,disabled-by-default-v8.cpu_profiler.hires")] ∧
    (Tracing.start path true PyCats.pyNone st h sendFails).ops =
      [SessionOp.send "Tracing.start" (SendParams.tracingStart "ReturnAsStream"
        "-*,devtools.timeline,v8.execute,disabled-by-default-devtools.timeline,disabled-by-default-devtools.timeline.frame,toplevel,blink.console,blink.user_timing,latencyInfo,disabled-by-default-devtools.timeline.stack,disabled-by-default-v8.cpu_profiler,disabled-by-default-v8.cpu_profiler.hires,disabled-by-default-devtools.screenshot")] :=
  ⟨rfl, rfl⟩

/-- C6 counterexample: a `tracingComplete` event with no `stream` field is
silently defaulted — `stop` goes on to issue `IO.read` with the null
handle — and when that read raises, `stop`'s caller receives no error:
the content future is never resolved, so `stop` hangs. -/
theorem c6_counterexample_missing_stream_hangs :
    (Tracing.stop ⟨true, ""⟩ false (some ⟨none⟩)
      [Except.error "bad handle"]).result = StopResult.hangs ∧
    Tracing.readOp none ∈
      (Tracing.stop ⟨true, ""⟩ false (some ⟨none⟩)
        [Except.error "bad handle"]).ops := by decide

/-- C6 amended: a missing `stream` field is silently defaulted to the null
handle, which `stop` passes to the drain loop and issues in `IO.read`;
if the drain then raises, the exception is lost inside the completion
callback, so no error reaches `stop`'s caller and `stop` never resolves. -/
theorem c6_amended_missing_stream_defaulted (st : TracingSt)
    (ev : TracingCompleteEvent) (resps : ReadOracle) (e : String)
    (hs : ev.stream = none)
    (hd : (Tracing.readStream none st.path resps).result =
      DrainResult.raised e) :
    (Tracing.stop st false (some ev) resps).result = StopResult.hangs ∧
    Tracing.readOp none ∈ (Tracing.stop st false (some ev) resps).ops := by
  constructor
  · simp [Tracing.stop, hs, hd]
  · simp [Tracing.stop, hs]
    exact Or.inr (Or.inr (readOp_mem_readStream none st.path resps))

/-- C6 amended witness: concrete instance with a single failing read. -/
theorem c6_amended_witness :
    (Tracing.stop ⟨true, "t.json"⟩ false (some ⟨none⟩)
      [Except.error "bad"]).result = StopResult.hangs ∧
    Tracing.readOp none ∈
      (Tracing.stop ⟨true, "t.json"⟩ false (some ⟨none⟩)
        [Except.error "bad"]).ops := by
  exact c6_amended_missing_stream_defaulted ⟨true, "t.json"⟩ ⟨none⟩
    [Except.error "bad"] "bad" rfl (by decide)

/-- C7 counterexample: a `start` whose send raises still sets the flag to
Recording (the flag is written before the send), and a `stop` whose
`Tracing.end` send raises completes with that error yet leaves the flag
Recording — contradicting transition exactly on success and reset on
every completion. -/
theorem c7_counterexample_transitions :
    ((Tracing.start "" false PyCats.pyNone ⟨false, ""⟩ [] true).outcome =
      StartOutcome.raised "transport" ∧
     (Tracing.start "" false PyCats.pyNone ⟨false, ""⟩ [] true).st.recording =
      true) ∧
    ((Tracing.stop ⟨true, ""⟩ true none []).result =
      StopResult.raised "transport" ∧
     (Tracing.stop ⟨true, ""⟩ true none []).st.recording = true) := by
  refine ⟨⟨rfl, rfl⟩, rfl, rfl⟩

/-- C7 amended: `start` sets the flag to Recording before its send, so the
flag becomes Recording even when `start` fails; `stop` clears it to Idle
exactly when the `Tracing.end` send succeeds, and leaves it untouched when
that send raises. Only `start` and `stop` touch the flag. -/
theorem c7_amended_recording_transitions :
    (∀ path screenshots cats st h sendFails,
      (Tracing.start path screenshots cats st h sendFails).st.recording =
        true) ∧
    (∀ st event resps,
      (Tracing.stop st false event resps).st.recording = false) ∧
    (∀ st event resps,
      (Tracing.stop st true event resps).st.recording = st.recording) := by
  refine ⟨fun path screenshots cats st h sendFails => rfl,
    fun st event resps => ?_, fun st event resps => rfl⟩
  cases event <;> rfl

/-- C8 counterexample: with the state already Idle (recording = false), a
further `stop` still arms another `tracingComplete` listener and sends
another `Tracing.end`, and completes normally — it does not fail with any
state-misuse error. -/
theorem c8_counterexample_second_stop :
    (Tracing.stop ⟨false, ""⟩ false (some ⟨some "h2"⟩)
      [Except.ok ⟨some "z", some true⟩]).ops.take 2 =
      [SessionOp.once "Tracing.tracingComplete",
       SessionOp.send "Tracing.end" SendParams.empty] ∧
    (Tracing.stop ⟨false, ""⟩ false (some ⟨some "h2"⟩)
      [Except.ok ⟨some "z", some true⟩]).result = StopResult.ok "z" := by
  decide

/-- C8 amended: `stop` never inspects the recording flag: called while Idle
it issues exactly the same operations with the same result as when
Recording — it arms another listener and sends another `Tracing.end`
instead of failing with a state-misuse error. -/
theorem c8_amended_stop_ignores_state (path : String) (endFails : Bool)
    (event : Option TracingCompleteEvent) (resps : ReadOracle) :
    (Tracing.stop ⟨false, path⟩ endFails event resps).ops =
      (Tracing.stop ⟨true, path⟩ endFails event resps).ops ∧
    (Tracing.stop ⟨false, path⟩ endFails event resps).result =
      (Tracing.stop ⟨true, path⟩ endFails event resps).result ∧
    (Tracing.stop ⟨false, path⟩ endFails event resps).ops.take 2 =
      [SessionOp.once "Tracing.tracingComplete",
       SessionOp.send "Tracing.end" SendParams.empty] := by
  cases endFails <;> cases event <;> exact ⟨rfl, rfl, rfl⟩

/-- C9: with screenshots on and a caller-supplied list, `start` appends the
screenshot token to the caller's own list object (visible through the
heap), and n successive calls with the same object leave it with n extra
screenshot tokens. -/
theorem c9_start_mutates_caller_list (path : String) (st : TracingSt)
    (h : Heap) (r : Nat) (l : List String) (n : Nat)
    (hr : h.get? r = some l) :
    (Tracing.start path true (PyCats.pyList r) st h false).heap.get? r =
      some (l ++ [Tracing.screenshotCategory]) ∧
    (Tracing.startNTimes n path true (PyCats.pyList r) st h).get? r =
      some (l ++ List.replicate n Tracing.screenshotCategory) := by
  constructor
  · have hr2 : h[r]? = some l := by
      rw [← List.get?_eq_getElem?]
      exact hr
    simp [Tracing.start, Tracing.resolveCategories, hr2,
      List.get?_eq_getElem?, List.getElem?_set_self']
  · induction n generalizing h l with
    | zero => simpa [Tracing.startNTimes] using hr
    | succ m ih =>
        have hr2 : h[r]? = some l := by
          rw [← List.get?_eq_getElem?]
          exact hr
        have h1 : (Tracing.start path true (PyCats.pyList r) st h false).heap =
            h.set r (l ++ [Tracing.screenshotCategory]) := by
          simp [Tracing.start, Tracing.resolveCategories, hr2]
        have h2 : (h.set r (l ++ [Tracing.screenshotCategory])).get? r =
            some (l ++ [Tracing.screenshotCategory]) := by
          simp [List.get?_eq_getElem?, List.getElem?_set_self', hr2]
        have h3 := ih (h.set r (l ++ [Tracing.screenshotCategory]))
          (l ++ [Tracing.screenshotCategory]) h2
        rw [Tracing.startNTimes, h1, h3]
        simp [List.replicate_succ]

/-- C9 witness: a singleton-content list, two successive calls, two extra
screenshot tokens. -/
theorem c9_mutation_witness :
    (Tracing.start "" true (PyCats.pyList 0) ⟨false, ""⟩ [["x"]] false).heap.get?
      0 = some ["x", "disabled-by-default-devtools.screenshot"] ∧
    (Tracing.startNTimes 2 "" true (PyCats.pyList 0) ⟨false, ""⟩ [["x"]]).get?
      0 = some ["x", "disabled-by-default-devtools.screenshot",
        "disabled-by-default-devtools.screenshot"] := by
  exact c9_start_mutates_caller_list "" ⟨false, ""⟩ [["x"]] 0 ["x"] 2 rfl

/-- C10: a string passed as categories is coerced element-wise by `list()`:
the serialized filter is the string's characters joined by commas — for
`abc` the wire string is `a,b,c` — and not the twelve-token default. -/
theorem c10_string_categories_elementwise (path : String) (st : TracingSt)
    (h : Heap) (sendFails : Bool) (s : String) :
    (Tracing.start path false (PyCats.pyStr s) st h sendFails).ops =
      [SessionOp.send "Tracing.start" (SendParams.tracingStart "ReturnAsStream"
        (String.intercalate "," (s.toList.map Char.toString)))] ∧
    (Tracing.start path false (PyCats.pyStr "abc") st h sendFails).ops =
      [SessionOp.send "Tracing.start"
        (SendParams.tracingStart "ReturnAsStream" "a,b,c")] ∧
    "a,b,c" ≠ String.intercalate "," Tracing.defaultCategories := by
  refine ⟨rfl, rfl, by decide⟩
